import Mathlib

set_option maxHeartbeats 1000000

/-!
Shallow embedding of `src/index.tsx` (nano-image): a browser front-end with
two async flows (image generation and image editing), two optional session
slots (`originalImageState`, `editedImageState`), DOM render regions, and a
gated enablement transition `setEditUIDisabled(disabled, force)`.

The DOM is modelled as lists of render nodes, the alert dialog as a log of
messages, the remote client as a function from a request record to a result,
and `Date.now()` as an explicit natural-number argument.
-/

namespace NanoImage

/-- Payload of the nullable `ImageState` type in src/index.tsx:
base64 data together with a mime type. -/
structure ImageRecord where
  data : String
  mimeType : String
deriving Repr, DecidableEq

/-- One DOM child node of a render region (`innerHTML` content is modelled
structurally: images, text paragraphs, the loading paragraph, the error
paragraph with its message). -/
inductive RenderNode where
  | img (data mimeType alt : String)
  | txt (value : String)
  | loadingMsg (value : String)
  | errorMsg (value : String)
deriving Repr, DecidableEq

/-- The generation request built in `handleGenerate` (model name, prompt and
config fields passed to `ai.models.generateImages`). -/
structure GenRequest where
  model : String
  prompt : String
  numberOfImages : Nat
  outputMimeType : String
  aspect : String
deriving Repr, DecidableEq

/-- The edit request built in `handleEdit` (model name, inline source image
and instruction text passed to `ai.models.generateContent`). -/
structure EditRequest where
  model : String
  imageData : String
  imageMime : String
  instruction : String
deriving Repr, DecidableEq

/-- The `image` field of one generated image: `imageBytes` and `mimeType`
are both optional in the provider's response type. -/
structure GenInnerImage where
  imageBytes : Option String
  mimeType : Option String
deriving Repr, DecidableEq

/-- One element of `generationResponse.generatedImages`. -/
structure GeneratedImage where
  image : Option GenInnerImage
deriving Repr, DecidableEq

/-- The generation response: `generatedImages` is optional. -/
structure GenResponse where
  generatedImages : Option (List GeneratedImage)
deriving Repr, DecidableEq

/-- One response part of the edit call: `inlineData` or `text`, each
optional (the code tests `part.inlineData` first, then `part.text`). -/
structure EditPart where
  inlineData : Option ImageRecord
  text : Option String
deriving Repr, DecidableEq

/-- The `content` record of a candidate: optional `parts` list. -/
structure ContentRec where
  parts : Option (List EditPart)
deriving Repr, DecidableEq

/-- One element of `editResponse.candidates`. -/
structure Candidate where
  content : Option ContentRec
deriving Repr, DecidableEq

/-- The edit response: `candidates` is optional. -/
structure EditResponse where
  candidates : Option (List Candidate)
deriving Repr, DecidableEq

/-- Result of an awaited remote call: resolved value or a thrown error
with its message. -/
inductive ClientResult (α : Type) where
  | ok (response : α)
  | err (message : String)
deriving Repr, DecidableEq

/-- The model name constant `imageGenerationModel`. -/
def imageGenerationModel : String := "imagen-4.0-generate-001"

/-- The model name constant `imageEditModel`. -/
def imageEditModel : String := "gemini-2.5-flash-image-preview"

/-- JavaScript `a || d` on an optional string: `undefined` and the empty
string both fall through to the default. -/
def jsOrElse (s : Option String) (d : String) : String :=
  match s with
  | some v => if v = "" then d else v
  | none => d

/-- JavaScript `String.prototype.trim`: strip leading and trailing
whitespace (embedded structurally over the character list so it is
kernel-evaluable). -/
def jsTrim (s : String) : String :=
  String.mk (((s.data.dropWhile Char.isWhitespace).reverse.dropWhile
    Char.isWhitespace).reverse)

/-- Auxiliary for `jsSplit`: split a character list at every occurrence of
the separator, keeping empty segments, as JavaScript `split` does. -/
def splitCharsAux (sep : Char) : List Char → List Char → List (List Char)
  | [], acc => [acc.reverse]
  | c :: cs, acc =>
    if c = sep then acc.reverse :: splitCharsAux sep cs []
    else splitCharsAux sep cs (c :: acc)

/-- JavaScript `String.prototype.split` with a one-character separator:
on the empty string it returns `[""]`, and separators at the ends produce
empty segments, matching JavaScript. -/
def jsSplit (s : String) (sep : Char) : List String :=
  (splitCharsAux sep s.data []).map String.mk

/-- The whole mutable state of the page: the two session slots, the four
render regions (save containers hold the artifact and filename stem the
save button closes over), the control flags and labels of both forms, the
alert log, and logs of the requests issued to the remote client. -/
structure AppState where
  originalImageState : Option ImageRecord
  editedImageState : Option ImageRecord
  originalWrapper : List RenderNode
  editedWrapper : List RenderNode
  originalSaveContainer : Option (ImageRecord × String)
  editedSaveContainer : Option (ImageRecord × String)
  generateDisabled : Bool
  generationInputDisabled : Bool
  aspectSelectDisabled : Bool
  generateLabel : String
  editDisabled : Bool
  editInputDisabled : Bool
  editLabel : String
  alerts : List String
  genRequests : List GenRequest
  editRequests : List EditRequest
deriving Repr, DecidableEq

/-- `alert(message)`: records the user-facing warning, changing nothing
else. -/
def alert (st : AppState) (message : String) : AppState :=
  { st with alerts := st.alerts ++ [message] }

/-- `setGenerateUIDisabled(disabled)` in src/index.tsx. -/
def setGenerateUIDisabled (st : AppState) (disabled : Bool) : AppState :=
  { st with
    generateDisabled := disabled
    generationInputDisabled := disabled
    aspectSelectDisabled := disabled
    generateLabel := if disabled then "Generating..." else "Generate Image" }

/-- `setEditUIDisabled(disabled, force)` in src/index.tsx: an enable call
is a no-op when no original image is stored, unless forced. -/
def setEditUIDisabled (st : AppState) (disabled : Bool) (force : Bool) : AppState :=
  if !disabled && st.originalImageState.isNone && !force then st
  else
    { st with
      editDisabled := disabled
      editInputDisabled := disabled
      editLabel := if disabled then "Editing..." else "Edit Image" }

/-- `createSaveButton(container, imageState, stem)`: no-op on a null image
state, otherwise the container is cleared and holds one save button closing
over the artifact and the filename stem. -/
def createSaveButton (container : Option (ImageRecord × String))
    (imageState : Option ImageRecord) (filenameStem : String) :
    Option (ImageRecord × String) :=
  match imageState with
  | none => container
  | some r => some (r, filenameStem)

/-- Extension derivation in `downloadImage`:
`imageState.mimeType.split('/')[1] || 'jpeg'`. -/
def fileExtensionOf (mimeType : String) : String :=
  jsOrElse ((jsSplit mimeType '/').get? 1) "jpeg"

/-- `downloadImage(imageState, stem)` with `Date.now()` passed explicitly:
returns the filename of the resource handed to the browser, or `none` for
the null-image no-op. -/
def downloadImage (imageState : Option ImageRecord) (filenameStem : String)
    (now : Nat) : Option String :=
  match imageState with
  | none => none
  | some img =>
    some (filenameStem ++ "-" ++ Nat.repr now ++ "." ++ fileExtensionOf img.mimeType)

/-- The loading-state block of `handleGenerate` (lines 56-63): disable the
generate form, null both session slots, put the loading paragraph in the
original region, clear the other regions, and force-disable the edit form. -/
def generateLoadingState (st : AppState) : AppState :=
  let st1 := setGenerateUIDisabled st true
  let st2 :=
    { st1 with
      originalImageState := none
      editedImageState := none
      originalWrapper := [RenderNode.loadingMsg "Generating original image..."]
      editedWrapper := []
      originalSaveContainer := none
      editedSaveContainer := none }
  setEditUIDisabled st2 true true

/-- The `GenRequest` built from a validated prompt and the aspect-ratio
selection. -/
def generateRequestOf (generationPrompt aspectValue : String) : GenRequest :=
  { model := imageGenerationModel
    prompt := generationPrompt
    numberOfImages := 1
    outputMimeType := "image/jpeg"
    aspect := aspectValue }

/-- State of `handleGenerate` at its await point: the loading block has run
and the request has been issued (logged). -/
def generatePendingState (st : AppState) (generationPrompt aspectValue : String) :
    AppState :=
  let st := generateLoadingState st
  { st with genRequests := st.genRequests ++ [generateRequestOf generationPrompt aspectValue] }

/-- The catch block of `handleGenerate`: the error paragraph replaces the
original region's content. -/
def renderGenerateError (st : AppState) (errorMessage : String) : AppState :=
  { st with originalWrapper := [RenderNode.errorMsg errorMessage] }

/-- The try/catch body of `handleGenerate` after the await resolves
(lines 77-108): checks `generatedImages?.[0]?.image?.imageBytes` for
truthiness, stores the artifact, renders it with its prompt, creates the
save button and enables the edit form; any failure renders the error. -/
def handleGenerateResolved (st : AppState) (generationPrompt : String)
    (result : ClientResult GenResponse) : AppState :=
  match result with
  | ClientResult.err msg => renderGenerateError st msg
  | ClientResult.ok resp =>
    let originalImage := Option.bind resp.generatedImages List.head?
    match Option.bind originalImage GeneratedImage.image with
    | none => renderGenerateError st "Failed to generate the initial image."
    | some inner =>
      match inner.imageBytes with
      | none => renderGenerateError st "Failed to generate the initial image."
      | some bytes =>
        if bytes = "" then
          renderGenerateError st "Failed to generate the initial image."
        else
          let originalMimeType := jsOrElse inner.mimeType "image/jpeg"
          let artifact : ImageRecord := { data := bytes, mimeType := originalMimeType }
          let st :=
            { st with
              originalImageState := some artifact
              originalWrapper :=
                [RenderNode.img bytes originalMimeType generationPrompt,
                 RenderNode.txt ("Prompt: \"" ++ generationPrompt ++ "\"")] }
          let st :=
            { st with
              originalSaveContainer :=
                createSaveButton st.originalSaveContainer st.originalImageState
                  "original-image" }
          setEditUIDisabled st false false

/-- `handleGenerate` end to end: validation, loading block, one remote
call, resolution handling, and the finally block re-enabling the generate
form. -/
def handleGenerate (st : AppState) (promptRaw aspectValue : String)
    (client : GenRequest → ClientResult GenResponse) : AppState :=
  let generationPrompt := jsTrim promptRaw
  if generationPrompt = "" then
    alert st "Please provide a description for the image you want to create."
  else
    setGenerateUIDisabled
      (handleGenerateResolved (generatePendingState st generationPrompt aspectValue)
        generationPrompt (client (generateRequestOf generationPrompt aspectValue)))
      false

/-- The loading-state block of `handleEdit` (lines 135-138): disable the
edit form (unforced), null the edited slot, put the loading paragraph in
the edit region, clear its save container. -/
def editLoadingState (st : AppState) : AppState :=
  let st := setEditUIDisabled st true false
  { st with
    editedImageState := none
    editedWrapper := [RenderNode.loadingMsg "Editing image with Nano Banana..."]
    editedSaveContainer := none }

/-- The `EditRequest` built from the stored original artifact and the
validated instruction. -/
def editRequestOf (orig : ImageRecord) (editPrompt : String) : EditRequest :=
  { model := imageEditModel
    imageData := orig.data
    imageMime := orig.mimeType
    instruction := editPrompt }

/-- Extraction `editResponse.candidates?.[0]?.content?.parts || []`. -/
def editResponseParts (resp : EditResponse) : List EditPart :=
  (Option.bind (Option.bind (Option.bind resp.candidates List.head?)
    Candidate.content) ContentRec.parts).getD []

/-- The loop body of `handleEdit` over one response part, threading the
`imageFound` flag: an image part replaces the edited slot, is prepended to
the region and refreshes the save button; a truthy text part is appended. -/
def processEditPart (editPrompt : String) (acc : AppState × Bool)
    (part : EditPart) : AppState × Bool :=
  let (st, imageFound) := acc
  match part.inlineData with
  | some d =>
    let st :=
      { st with
        editedImageState := some d
        editedWrapper := RenderNode.img d.data d.mimeType editPrompt :: st.editedWrapper }
    let st :=
      { st with
        editedSaveContainer :=
          createSaveButton st.editedSaveContainer st.editedImageState "edited-image" }
    (st, true)
  | none =>
    match part.text with
    | some t =>
      if t = "" then (st, imageFound)
      else ({ st with editedWrapper := st.editedWrapper ++ [RenderNode.txt t] },
            imageFound)
    | none => (st, imageFound)

/-- The catch block of `handleEdit`: the error paragraph replaces the edit
region's content. -/
def renderEditError (st : AppState) (errorMessage : String) : AppState :=
  { st with editedWrapper := [RenderNode.errorMsg errorMessage] }

/-- The try/catch body of `handleEdit` after the await resolves
(lines 161-198): clears the loading message, renders the instruction
caption, processes all parts in order, and raises the no-image failure to
the catch when no image part was found. -/
def handleEditResolved (st : AppState) (editPrompt : String)
    (result : ClientResult EditResponse) : AppState :=
  match result with
  | ClientResult.err msg => renderEditError st msg
  | ClientResult.ok resp =>
    let st :=
      { st with editedWrapper := [RenderNode.txt ("Edit: \"" ++ editPrompt ++ "\"")] }
    let folded := (editResponseParts resp).foldl (processEditPart editPrompt) (st, false)
    if folded.2 then folded.1
    else renderEditError folded.1 "The model did not return an edited image."

/-- `handleEdit` end to end: the null-original and empty-instruction
guards, loading block, one remote call, resolution handling, and the
finally block re-enabling the edit form (subject to the gate). -/
def handleEdit (st : AppState) (instructionRaw : String)
    (client : EditRequest → ClientResult EditResponse) : AppState :=
  match st.originalImageState with
  | none => alert st "Please generate an image first before editing."
  | some orig =>
    let editPrompt := jsTrim instructionRaw
    if editPrompt = "" then
      alert st "Please provide a description of how you want to edit the image."
    else
      let st := editLoadingState st
      let st := { st with editRequests := st.editRequests ++ [editRequestOf orig editPrompt] }
      setEditUIDisabled
        (handleEditResolved st editPrompt (client (editRequestOf orig editPrompt)))
        false false

/-- One user-triggered event: a click on the generate button or on the
edit button, with the remote client's behavior for the call it causes. -/
inductive Event where
  | genClick (promptRaw aspectValue : String)
      (client : GenRequest → ClientResult GenResponse)
  | editClick (instructionRaw : String)
      (client : EditRequest → ClientResult EditResponse)

/-- The step function of the UI state machine: dispatch one event to its
handler. -/
def step (st : AppState) (e : Event) : AppState :=
  match e with
  | Event.genClick p a c => handleGenerate st p a c
  | Event.editClick i c => handleEdit st i c

/-- The enablement invariant: the edit trigger is enabled only when an
original image is stored. -/
def editEnableInvariant (st : AppState) : Prop :=
  st.editDisabled = false → st.originalImageState ≠ none

/-- A concrete page state with no image yet: both slots null, regions
empty, generate form enabled, edit form disabled. -/
def demoState : AppState :=
  { originalImageState := none
    editedImageState := none
    originalWrapper := []
    editedWrapper := []
    originalSaveContainer := none
    editedSaveContainer := none
    generateDisabled := false
    generationInputDisabled := false
    aspectSelectDisabled := false
    generateLabel := "Generate Image"
    editDisabled := true
    editInputDisabled := true
    editLabel := "Edit Image"
    alerts := []
    genRequests := []
    editRequests := [] }

/-- A concrete image artifact. -/
def demoArtifact : ImageRecord := { data := "QUJD", mimeType := "image/png" }

/-- The demo page state after an original image has been stored and the
edit form enabled. -/
def demoStateWithOriginal : AppState :=
  { demoState with originalImageState := some demoArtifact, editDisabled := false,
                   editInputDisabled := false }

/-- The composed optional-chain extraction
`generationResponse.generatedImages?.[0]?.image?.imageBytes`. -/
def genExtractedBytes (resp : GenResponse) : Option String :=
  Option.bind (Option.bind (Option.bind resp.generatedImages List.head?)
    GeneratedImage.image) GenInnerImage.imageBytes

@[simp]
theorem setEditUIDisabled_originalImageState (st : AppState) (d f : Bool) :
    (setEditUIDisabled st d f).originalImageState = st.originalImageState := by
  unfold setEditUIDisabled
  split <;> rfl

@[simp]
theorem setEditUIDisabled_editedImageState (st : AppState) (d f : Bool) :
    (setEditUIDisabled st d f).editedImageState = st.editedImageState := by
  unfold setEditUIDisabled
  split <;> rfl

@[simp]
theorem setEditUIDisabled_editedWrapper (st : AppState) (d f : Bool) :
    (setEditUIDisabled st d f).editedWrapper = st.editedWrapper := by
  unfold setEditUIDisabled
  split <;> rfl

@[simp]
theorem setGenerateUIDisabled_editDisabled (st : AppState) (d : Bool) :
    (setGenerateUIDisabled st d).editDisabled = st.editDisabled := rfl

@[simp]
theorem setGenerateUIDisabled_originalImageState (st : AppState) (d : Bool) :
    (setGenerateUIDisabled st d).originalImageState = st.originalImageState := rfl

theorem setEditUIDisabled_enable_some (st : AppState) (r : ImageRecord)
    (h : st.originalImageState = some r) :
    setEditUIDisabled st false false =
      { st with editDisabled := false, editInputDisabled := false,
                editLabel := "Edit Image" } := by
  unfold setEditUIDisabled
  simp [h]

/-- C10: in `setEditUIDisabled(disabled, force)`, disabling always takes
effect for every force flag and every `original` value; the gate is only
consulted when enabling: an enable with `original` null and no force is a
complete no-op, and a forced enable succeeds even with `original` null. -/
theorem edit_gate_transition_c10 :
    (∀ st force, (setEditUIDisabled st true force).editDisabled = true ∧
      (setEditUIDisabled st true force).editInputDisabled = true ∧
      (setEditUIDisabled st true force).editLabel = "Editing...") ∧
    (∀ st, st.originalImageState = none → setEditUIDisabled st false false = st) ∧
    (∀ st, (setEditUIDisabled st false true).editDisabled = false ∧
      (setEditUIDisabled st false true).editInputDisabled = false ∧
      (setEditUIDisabled st false true).editLabel = "Edit Image") := by
  refine ⟨fun st force => ?_, fun st h => ?_, fun st => ?_⟩
  · unfold setEditUIDisabled
    simp
  · unfold setEditUIDisabled
    simp [h]
  · unfold setEditUIDisabled
    simp

/-- Witness for C10 at a concrete state with no stored original. -/
theorem edit_gate_transition_c10_witness :
    setEditUIDisabled demoState false false = demoState :=
  edit_gate_transition_c10.2.1 demoState rfl

/-- C8: the save action produces
`"<stem>-<epoch-millis>.<extension>"`, the extension is the mime subtype
defaulting to `jpeg` when absent or empty, successive calls differ only in
the timestamp, and a null artifact is a no-op. -/
theorem download_filename_c8 :
    (∀ stem now, downloadImage none stem now = none) ∧
    (∀ img stem now,
      downloadImage (some img) stem now =
        some (stem ++ "-" ++ Nat.repr now ++ "." ++ fileExtensionOf img.mimeType)) ∧
    (∀ img stem t1 t2, ∃ pre suf,
      downloadImage (some img) stem t1 = some (pre ++ Nat.repr t1 ++ suf) ∧
      downloadImage (some img) stem t2 = some (pre ++ Nat.repr t2 ++ suf)) ∧
    fileExtensionOf "image/png" = "png" ∧
    fileExtensionOf "image" = "jpeg" ∧
    fileExtensionOf "image/" = "jpeg" := by
  refine ⟨fun stem now => rfl, fun img stem now => rfl, fun img stem t1 t2 => ?_,
    by decide, by decide, by decide⟩
  exact ⟨stem ++ "-", "." ++ fileExtensionOf img.mimeType, by
    simp [downloadImage, String.append_assoc], by
    simp [downloadImage, String.append_assoc]⟩

/-- C7: each validation failure (empty prompt for Generate; null original
or empty instruction for Edit) only records the user-facing warning: no
request is issued, no state is mutated, no loading transition happens. -/
theorem validation_no_mutation_c7 :
    (∀ st p a c, jsTrim p = "" →
      handleGenerate st p a c =
        alert st "Please provide a description for the image you want to create.") ∧
    (∀ st i c, st.originalImageState = none →
      handleEdit st i c = alert st "Please generate an image first before editing.") ∧
    (∀ st i c (orig : ImageRecord), st.originalImageState = some orig → jsTrim i = "" →
      handleEdit st i c =
        alert st "Please provide a description of how you want to edit the image.") := by
  refine ⟨fun st p a c h => ?_, fun st i c h => ?_, fun st i c orig h h2 => ?_⟩
  · simp [handleGenerate, h]
  · simp [handleEdit, h]
  · simp [handleEdit, h, h2]

/-- Witness for C7 at concrete states and inputs. -/
theorem validation_no_mutation_c7_witness :
    handleGenerate demoState "   " "1:1" (fun _ => ClientResult.err "boom") =
      alert demoState "Please provide a description for the image you want to create." ∧
    handleEdit demoState "make it blue" (fun _ => ClientResult.err "boom") =
      alert demoState "Please generate an image first before editing." ∧
    handleEdit demoStateWithOriginal "  " (fun _ => ClientResult.err "boom") =
      alert demoStateWithOriginal
        "Please provide a description of how you want to edit the image." :=
  ⟨validation_no_mutation_c7.1 demoState "   " "1:1" _ (by decide),
   validation_no_mutation_c7.2.1 demoState "make it blue" _ rfl,
   validation_no_mutation_c7.2.2 demoStateWithOriginal "  " _ demoArtifact rfl (by decide)⟩

/-- C4: every Generation Flow invocation that passes validation reaches,
before its remote request resolves, a state with both session slots null,
the original region holding only the loading paragraph, the edited region
and both save containers cleared, and the edit form force-disabled; the
flow factors through exactly that state. -/
theorem generate_loading_clears_c4 (st : AppState) (p a : String)
    (hp : jsTrim p ≠ "") :
    (generatePendingState st (jsTrim p) a).originalImageState = none ∧
    (generatePendingState st (jsTrim p) a).editedImageState = none ∧
    (generatePendingState st (jsTrim p) a).originalWrapper =
      [RenderNode.loadingMsg "Generating original image..."] ∧
    (generatePendingState st (jsTrim p) a).editedWrapper = [] ∧
    (generatePendingState st (jsTrim p) a).originalSaveContainer = none ∧
    (generatePendingState st (jsTrim p) a).editedSaveContainer = none ∧
    (generatePendingState st (jsTrim p) a).editDisabled = true ∧
    (generatePendingState st (jsTrim p) a).editInputDisabled = true ∧
    (∀ c, handleGenerate st p a c =
      setGenerateUIDisabled
        (handleGenerateResolved (generatePendingState st (jsTrim p) a) (jsTrim p)
          (c (generateRequestOf (jsTrim p) a)))
        false) := by
  refine ⟨?_, ?_, ?_, ?_, ?_, ?_, ?_, ?_, fun c => ?_⟩
  all_goals
    simp [generatePendingState, generateLoadingState, setGenerateUIDisabled,
      setEditUIDisabled, handleGenerate, hp]

theorem foldl_processEditPart_originalImageState (ep : String)
    (parts : List EditPart) (acc : AppState × Bool) :
    ((parts.foldl (processEditPart ep) acc).1).originalImageState =
      acc.1.originalImageState := by
  induction parts generalizing acc with
  | nil => rfl
  | cons q qs ih =>
    rw [List.foldl_cons, ih]
    obtain ⟨st, b⟩ := acc
    cases hq : q.inlineData with
    | some d => simp [processEditPart, hq, createSaveButton]
    | none =>
      cases ht : q.text with
      | some t => by_cases h0 : t = "" <;> simp [processEditPart, hq, ht, h0]
      | none => simp [processEditPart, hq, ht]

theorem foldl_processEditPart_noImage (ep : String) (parts : List EditPart)
    (h : ∀ q ∈ parts, q.inlineData = none) (acc : AppState × Bool) :
    ((parts.foldl (processEditPart ep) acc).1).editedImageState =
      acc.1.editedImageState ∧
    (parts.foldl (processEditPart ep) acc).2 = acc.2 := by
  induction parts generalizing acc with
  | nil => exact ⟨rfl, rfl⟩
  | cons q qs ih =>
    have hq := h q (by simp)
    have hqs : ∀ x ∈ qs, x.inlineData = none := fun x hx => h x (by simp [hx])
    rw [List.foldl_cons]
    have hstep : (processEditPart ep acc q).1.editedImageState =
        acc.1.editedImageState ∧ (processEditPart ep acc q).2 = acc.2 := by
      obtain ⟨st, b⟩ := acc
      cases ht : q.text with
      | some t => by_cases h0 : t = "" <;> simp [processEditPart, hq, ht, h0]
      | none => simp [processEditPart, hq, ht]
    obtain ⟨ih1, ih2⟩ := ih hqs (processEditPart ep acc q)
    exact ⟨ih1.trans hstep.1, ih2.trans hstep.2⟩

theorem handleEditResolved_originalImageState (st : AppState) (ep : String)
    (r : ClientResult EditResponse) :
    (handleEditResolved st ep r).originalImageState = st.originalImageState := by
  cases r with
  | err m => rfl
  | ok resp =>
    simp only [handleEditResolved]
    split
    · exact foldl_processEditPart_originalImageState ep (editResponseParts resp) _
    · simpa [renderEditError] using
        foldl_processEditPart_originalImageState ep (editResponseParts resp)
          ({ st with editedWrapper := [RenderNode.txt ("Edit: \"" ++ ep ++ "\"")] }, false)

/-- Witness for C4 at a concrete state and prompt. -/
theorem generate_loading_clears_c4_witness :
    (generatePendingState demoStateWithOriginal (jsTrim "cat") "1:1").originalImageState =
      none ∧
    (generatePendingState demoStateWithOriginal (jsTrim "cat") "1:1").editedImageState =
      none ∧
    (generatePendingState demoStateWithOriginal (jsTrim "cat") "1:1").editDisabled =
      true :=
  ⟨(generate_loading_clears_c4 demoStateWithOriginal "cat" "1:1" (by decide)).1,
   (generate_loading_clears_c4 demoStateWithOriginal "cat" "1:1" (by decide)).2.1,
   (generate_loading_clears_c4 demoStateWithOriginal "cat" "1:1" (by decide)).2.2.2.2.2.2.1⟩

/-- A concrete well-formed generation response. -/
def demoGenResponse : GenResponse :=
  { generatedImages :=
      some [{ image := some { imageBytes := some "QUJD", mimeType := some "image/png" } }] }

/-- A concrete generation response whose image list is empty. -/
def demoEmptyGenResponse : GenResponse := { generatedImages := some [] }

/-- C3: for every non-empty trimmed prompt, if the client resolves with a
well-formed image (non-empty bytes and a non-empty mime type), the
Generation Flow stores exactly that image as the new `original`, leaves
`edited` null, and re-enables the edit form. -/
theorem generate_success_c3 (st : AppState) (p a : String) (resp : GenResponse)
    (gi : GeneratedImage) (rest : List GeneratedImage) (inner : GenInnerImage)
    (b m : String) (hp : jsTrim p ≠ "")
    (hgen : resp.generatedImages = some (gi :: rest))
    (himg : gi.image = some inner)
    (hbytes : inner.imageBytes = some b) (hb : b ≠ "")
    (hmime : inner.mimeType = some m) (hm : m ≠ "") :
    (handleGenerate st p a (fun _ => ClientResult.ok resp)).originalImageState =
      some { data := b, mimeType := m } ∧
    (handleGenerate st p a (fun _ => ClientResult.ok resp)).editedImageState = none ∧
    (handleGenerate st p a (fun _ => ClientResult.ok resp)).editDisabled = false ∧
    (handleGenerate st p a (fun _ => ClientResult.ok resp)).editInputDisabled = false := by
  simp [handleGenerate, hp, handleGenerateResolved, hgen, himg, hbytes, hb, hmime, hm,
    jsOrElse, generatePendingState, generateLoadingState, setGenerateUIDisabled,
    setEditUIDisabled, createSaveButton, renderGenerateError]

/-- Witness for C3 at a concrete prompt, state and response. -/
theorem generate_success_c3_witness :
    (handleGenerate demoState "cat" "1:1"
        (fun _ => ClientResult.ok demoGenResponse)).originalImageState =
      some { data := "QUJD", mimeType := "image/png" } ∧
    (handleGenerate demoState "cat" "1:1"
        (fun _ => ClientResult.ok demoGenResponse)).editedImageState = none ∧
    (handleGenerate demoState "cat" "1:1"
        (fun _ => ClientResult.ok demoGenResponse)).editDisabled = false ∧
    (handleGenerate demoState "cat" "1:1"
        (fun _ => ClientResult.ok demoGenResponse)).editInputDisabled = false := by
  exact generate_success_c3 demoState "cat" "1:1" demoGenResponse
    { image := some { imageBytes := some "QUJD", mimeType := some "image/png" } } []
    { imageBytes := some "QUJD", mimeType := some "image/png" } "QUJD" "image/png"
    (by decide) rfl rfl rfl (by decide) rfl (by decide)

/-- C5: for every post-validation failure of the Generation Flow — a
client error, or a resolved response with no usable image bytes — the
error paragraph replaces the original region, `original` stays null, and
the edit form stays disabled. -/
theorem generate_failure_c5 (st : AppState) (p a : String) (hp : jsTrim p ≠ "") :
    (∀ msg,
      (handleGenerate st p a (fun _ => ClientResult.err msg)).originalWrapper =
        [RenderNode.errorMsg msg] ∧
      (handleGenerate st p a (fun _ => ClientResult.err msg)).originalImageState = none ∧
      (handleGenerate st p a (fun _ => ClientResult.err msg)).editDisabled = true ∧
      (handleGenerate st p a (fun _ => ClientResult.err msg)).editInputDisabled = true) ∧
    (∀ resp, (genExtractedBytes resp = none ∨ genExtractedBytes resp = some "") →
      (handleGenerate st p a (fun _ => ClientResult.ok resp)).originalWrapper =
        [RenderNode.errorMsg "Failed to generate the initial image."] ∧
      (handleGenerate st p a (fun _ => ClientResult.ok resp)).originalImageState = none ∧
      (handleGenerate st p a (fun _ => ClientResult.ok resp)).editDisabled = true ∧
      (handleGenerate st p a (fun _ => ClientResult.ok resp)).editInputDisabled = true) := by
  constructor
  · intro msg
    simp [handleGenerate, hp, handleGenerateResolved, renderGenerateError,
      generatePendingState, generateLoadingState, setGenerateUIDisabled,
      setEditUIDisabled]
  · intro resp h
    cases hgen : resp.generatedImages with
    | none =>
      simp [handleGenerate, hp, handleGenerateResolved, hgen, renderGenerateError,
        generatePendingState, generateLoadingState, setGenerateUIDisabled,
        setEditUIDisabled]
    | some l =>
      cases l with
      | nil =>
        simp [handleGenerate, hp, handleGenerateResolved, hgen, renderGenerateError,
          generatePendingState, generateLoadingState, setGenerateUIDisabled,
          setEditUIDisabled]
      | cons gi rest =>
        cases himg : gi.image with
        | none =>
          simp [handleGenerate, hp, handleGenerateResolved, hgen, himg,
            renderGenerateError, generatePendingState, generateLoadingState,
            setGenerateUIDisabled, setEditUIDisabled]
        | some inner =>
          cases hbytes : inner.imageBytes with
          | none =>
            simp [handleGenerate, hp, handleGenerateResolved, hgen, himg, hbytes,
              renderGenerateError, generatePendingState, generateLoadingState,
              setGenerateUIDisabled, setEditUIDisabled]
          | some bytes =>
            rcases h with h | h
            · simp [genExtractedBytes, hgen, himg, hbytes] at h
            · simp [genExtractedBytes, hgen, himg, hbytes] at h
              subst h
              simp [handleGenerate, hp, handleGenerateResolved, hgen, himg, hbytes,
                renderGenerateError, generatePendingState, generateLoadingState,
                setGenerateUIDisabled, setEditUIDisabled]

/-- Witness for C5 at a concrete prompt, a client error and an
empty-image-list response. -/
theorem generate_failure_c5_witness :
    (handleGenerate demoState "cat" "1:1"
        (fun _ => ClientResult.err "network down")).originalWrapper =
      [RenderNode.errorMsg "network down"] ∧
    (handleGenerate demoState "cat" "1:1"
        (fun _ => ClientResult.ok demoEmptyGenResponse)).originalImageState = none ∧
    (handleGenerate demoState "cat" "1:1"
        (fun _ => ClientResult.ok demoEmptyGenResponse)).editDisabled = true := by
  have h := generate_failure_c5 demoState "cat" "1:1" (by decide)
  exact ⟨(h.1 "network down").1, (h.2 demoEmptyGenResponse (Or.inl rfl)).2.1,
    (h.2 demoEmptyGenResponse (Or.inl rfl)).2.2.1⟩

/-- C9: every flow invocation that entered loading restores its own
controls on every exit path: the Generation Flow unconditionally
re-enables its trigger and inputs, the Edit Flow re-enables its trigger
and input through the gate (which passes because `original` is still
stored), and the gated re-enable is a no-op when `original` is null
without force. -/
theorem flows_restore_controls_c9 :
    (∀ st p a c, jsTrim p ≠ "" →
      (handleGenerate st p a c).generateDisabled = false ∧
      (handleGenerate st p a c).generationInputDisabled = false ∧
      (handleGenerate st p a c).aspectSelectDisabled = false ∧
      (handleGenerate st p a c).generateLabel = "Generate Image") ∧
    (∀ st i c (orig : ImageRecord), st.originalImageState = some orig →
      jsTrim i ≠ "" →
      (handleEdit st i c).editDisabled = false ∧
      (handleEdit st i c).editInputDisabled = false ∧
      (handleEdit st i c).editLabel = "Edit Image") ∧
    (∀ st, st.originalImageState = none → setEditUIDisabled st false false = st) := by
  refine ⟨fun st p a c hp => ?_, fun st i c orig horig hi => ?_, fun st h => ?_⟩
  · simp [handleGenerate, hp, setGenerateUIDisabled]
  · have key : ∀ Z : AppState, Z.originalImageState = some orig →
        (setEditUIDisabled Z false false).editDisabled = false ∧
        (setEditUIDisabled Z false false).editInputDisabled = false ∧
        (setEditUIDisabled Z false false).editLabel = "Edit Image" := by
      intro Z hZ
      rw [setEditUIDisabled_enable_some Z orig hZ]
      exact ⟨rfl, rfl, rfl⟩
    simp only [handleEdit, horig]
    rw [if_neg hi]
    exact key _ (by
      rw [handleEditResolved_originalImageState]
      simp [editLoadingState, horig])
  · unfold setEditUIDisabled
    simp [h]

/-- Witness for C9 at a concrete failing generation and a concrete failing
edit. -/
theorem flows_restore_controls_c9_witness :
    (handleGenerate demoState "cat" "1:1"
        (fun _ => ClientResult.err "boom")).generateDisabled = false ∧
    (handleEdit demoStateWithOriginal "make it blue"
        (fun _ => ClientResult.err "boom")).editDisabled = false := by
  exact ⟨(flows_restore_controls_c9.1 demoState "cat" "1:1" _ (by decide)).1,
    (flows_restore_controls_c9.2.1 demoStateWithOriginal "make it blue" _ demoArtifact
      rfl (by decide)).1⟩

theorem handleEditResolved_noImage (st : AppState) (ep : String)
    (resp : EditResponse)
    (hno : ∀ q ∈ editResponseParts resp, q.inlineData = none) :
    (handleEditResolved st ep (ClientResult.ok resp)).editedImageState =
      st.editedImageState ∧
    (handleEditResolved st ep (ClientResult.ok resp)).editedWrapper =
      [RenderNode.errorMsg "The model did not return an edited image."] := by
  have hfold := foldl_processEditPart_noImage ep (editResponseParts resp) hno
    ({ st with editedWrapper := [RenderNode.txt ("Edit: \"" ++ ep ++ "\"")] }, false)
  refine ⟨?_, ?_⟩ <;> simp only [handleEditResolved] <;> rw [hfold.2] <;>
    simp [renderEditError, hfold.1]

/-- C6: when the resolved edit response contains no image part (including
an empty or missing parts list), the Edit Flow raises the no-image failure
handled by the inline-error path — the edit region holds only the error
message — and the `edited` slot is still null at completion. -/
theorem edit_no_image_failure_c6 (st : AppState) (i : String)
    (orig : ImageRecord) (resp : EditResponse)
    (horig : st.originalImageState = some orig) (hi : jsTrim i ≠ "")
    (hno : ∀ q ∈ editResponseParts resp, q.inlineData = none) :
    (handleEdit st i (fun _ => ClientResult.ok resp)).editedImageState = none ∧
    (handleEdit st i (fun _ => ClientResult.ok resp)).editedWrapper =
      [RenderNode.errorMsg "The model did not return an edited image."] := by
  simp only [handleEdit, horig]
  rw [if_neg hi]
  constructor
  · rw [setEditUIDisabled_editedImageState]
    rw [(handleEditResolved_noImage _ _ _ hno).1]
    simp [editLoadingState]
  · rw [setEditUIDisabled_editedWrapper]
    exact (handleEditResolved_noImage _ _ _ hno).2

/-- A concrete text-only edit part. -/
def demoNoImagePart : EditPart := { inlineData := none, text := some "cannot edit" }

/-- A concrete edit response whose only part is text. -/
def demoNoImageEditResponse : EditResponse :=
  { candidates := some [{ content := some { parts := some [demoNoImagePart] } }] }

/-- Witness for C6 at a concrete state, instruction and text-only
response. -/
theorem edit_no_image_failure_c6_witness :
    (handleEdit demoStateWithOriginal "blue"
        (fun _ => ClientResult.ok demoNoImageEditResponse)).editedImageState = none ∧
    (handleEdit demoStateWithOriginal "blue"
        (fun _ => ClientResult.ok demoNoImageEditResponse)).editedWrapper =
      [RenderNode.errorMsg "The model did not return an edited image."] :=
  edit_no_image_failure_c6 demoStateWithOriginal "blue" demoArtifact
    demoNoImageEditResponse rfl (by decide) (by decide)

/-- C2: for an edit response whose ordered parts are text A, image X,
text B, image Y, the `edited` slot ends as Y (last image processed wins),
both images sit at the top of the edit region with Y first, and every
node below them is a text node. -/
theorem edit_multi_image_c2 (st : AppState) (orig X Y : ImageRecord)
    (i A B : String) (resp : EditResponse)
    (horig : st.originalImageState = some orig) (hi : jsTrim i ≠ "")
    (hparts : editResponseParts resp =
      [{ inlineData := none, text := some A },
       { inlineData := some X, text := none },
       { inlineData := none, text := some B },
       { inlineData := some Y, text := none }]) :
    (handleEdit st i (fun _ => ClientResult.ok resp)).editedImageState = some Y ∧
    ∃ ts, (handleEdit st i (fun _ => ClientResult.ok resp)).editedWrapper =
        RenderNode.img Y.data Y.mimeType (jsTrim i) ::
          RenderNode.img X.data X.mimeType (jsTrim i) :: ts ∧
      ∀ n ∈ ts, ∃ s, n = RenderNode.txt s := by
  have hmain : ∀ stMid : AppState,
      (handleEditResolved stMid (jsTrim i) (ClientResult.ok resp)).editedImageState =
        some Y ∧
      ∃ ts, (handleEditResolved stMid (jsTrim i)
          (ClientResult.ok resp)).editedWrapper =
          RenderNode.img Y.data Y.mimeType (jsTrim i) ::
            RenderNode.img X.data X.mimeType (jsTrim i) :: ts ∧
        ∀ n ∈ ts, ∃ s, n = RenderNode.txt s := by
    intro stMid
    by_cases hA : A = "" <;> by_cases hB : B = "" <;>
      refine ⟨by simp [handleEditResolved, hparts, processEditPart, createSaveButton,
          hA, hB], ?_⟩ <;>
      simp [handleEditResolved, hparts, processEditPart, createSaveButton, hA, hB]
  constructor
  · simp only [handleEdit, horig]
    rw [if_neg hi, setEditUIDisabled_editedImageState]
    exact (hmain _).1
  · simp only [handleEdit, horig]
    rw [if_neg hi, setEditUIDisabled_editedWrapper]
    exact (hmain _).2

/-- A concrete first image artifact for the C2 witness. -/
def demoImgX : ImageRecord := { data := "WA==", mimeType := "image/png" }

/-- A concrete second image artifact for the C2 witness. -/
def demoImgY : ImageRecord := { data := "WQ==", mimeType := "image/webp" }

/-- The four parts text, image, text, image of the C2 witness response. -/
def demoMultiParts : List EditPart :=
  [{ inlineData := none, text := some "Here" },
   { inlineData := some demoImgX, text := none },
   { inlineData := none, text := some "and" },
   { inlineData := some demoImgY, text := none }]

/-- A concrete edit response with parts text, image, text, image. -/
def demoMultiEditResponse : EditResponse :=
  { candidates := some [{ content := some { parts := some demoMultiParts } }] }

/-- Witness for C2 at a concrete state, instruction and four-part
response. -/
theorem edit_multi_image_c2_witness :
    (handleEdit demoStateWithOriginal "blue"
        (fun _ => ClientResult.ok demoMultiEditResponse)).editedImageState =
      some { data := "WQ==", mimeType := "image/webp" } ∧
    ∃ ts, (handleEdit demoStateWithOriginal "blue"
        (fun _ => ClientResult.ok demoMultiEditResponse)).editedWrapper =
        RenderNode.img "WQ==" "image/webp" (jsTrim "blue") ::
          RenderNode.img "WA==" "image/png" (jsTrim "blue") :: ts ∧
      ∀ n ∈ ts, ∃ s, n = RenderNode.txt s :=
  edit_multi_image_c2 demoStateWithOriginal demoArtifact
    { data := "WA==", mimeType := "image/png" }
    { data := "WQ==", mimeType := "image/webp" } "blue" "Here" "and"
    demoMultiEditResponse rfl (by decide) rfl

theorem generatePendingState_editDisabled (st : AppState) (p a : String) :
    (generatePendingState st p a).editDisabled = true := by
  simp [generatePendingState, generateLoadingState, setEditUIDisabled,
    setGenerateUIDisabled]

theorem handleGenerateResolved_invariant (st : AppState) (p : String)
    (r : ClientResult GenResponse) (hd : st.editDisabled = true) :
    editEnableInvariant (handleGenerateResolved st p r) := by
  cases r with
  | err m => simp [handleGenerateResolved, renderGenerateError, editEnableInvariant, hd]
  | ok resp =>
    simp only [handleGenerateResolved]
    split
    · simp [renderGenerateError, editEnableInvariant, hd]
    · split
      · simp [renderGenerateError, editEnableInvariant, hd]
      · split
        · simp [renderGenerateError, editEnableInvariant, hd]
        · simp [editEnableInvariant, setEditUIDisabled, createSaveButton]

theorem step_preserves_invariant (st : AppState) (e : Event)
    (h : editEnableInvariant st) : editEnableInvariant (step st e) := by
  cases e with
  | genClick p a c =>
    simp only [step, handleGenerate]
    by_cases hp : jsTrim p = ""
    · rw [if_pos hp]
      intro hdis
      exact h hdis
    · rw [if_neg hp]
      intro hdis
      rw [setGenerateUIDisabled_editDisabled] at hdis
      rw [setGenerateUIDisabled_originalImageState]
      exact handleGenerateResolved_invariant _ _ _
        (generatePendingState_editDisabled st (jsTrim p) a) hdis
  | editClick i c =>
    cases horig : st.originalImageState with
    | none =>
      simp only [step, handleEdit, horig]
      intro hdis
      exact h hdis
    | some orig =>
      simp only [step, handleEdit, horig]
      by_cases hi : jsTrim i = ""
      · rw [if_pos hi]
        intro hdis
        exact h hdis
      · rw [if_neg hi]
        intro _
        rw [setEditUIDisabled_originalImageState, handleEditResolved_originalImageState]
        simp [editLoadingState, horig]

/-- C1: the Edit enablement gate — an unforced enable is a no-op while
`original` is null, the Generation Flow's loading block leaves the Edit
controls disabled regardless of their prior state, and along every
sequence of button-click events the Edit trigger is never enabled while
`original` is null. -/
theorem edit_enable_gate_c1 :
    (∀ st, st.originalImageState = none → setEditUIDisabled st false false = st) ∧
    (∀ st, (generateLoadingState st).editDisabled = true ∧
      (generateLoadingState st).editInputDisabled = true) ∧
    (∀ st evs, editEnableInvariant st →
      editEnableInvariant (List.foldl step st evs)) := by
  refine ⟨fun st h => ?_, fun st => ?_, fun st evs => ?_⟩
  · unfold setEditUIDisabled
    simp [h]
  · constructor <;>
      simp [generateLoadingState, setEditUIDisabled, setGenerateUIDisabled]
  · induction evs generalizing st with
    | nil => exact fun h => h
    | cons e es ih =>
      intro h
      rw [List.foldl_cons]
      exact ih _ (step_preserves_invariant st e h)

/-- A concrete sequence of button clicks: a failing generation, an edit
attempt, then a successful generation. -/
def demoEvents : List Event :=
  [Event.genClick "cat" "1:1" (fun _ => ClientResult.err "boom"),
   Event.editClick "blue" (fun _ => ClientResult.err "down"),
   Event.genClick "dog" "16:9" (fun _ => ClientResult.ok demoGenResponse)]

/-- Witness for C1 at a concrete state and event sequence. -/
theorem edit_enable_gate_c1_witness :
    setEditUIDisabled demoState false false = demoState ∧
    editEnableInvariant (List.foldl step demoState demoEvents) :=
  ⟨edit_enable_gate_c1.1 demoState rfl,
   edit_enable_gate_c1.2.2 demoState demoEvents (by
     intro h
     simp [demoState] at h)⟩

end NanoImage
